import Mathlib

/-!
Verification of the neolink request-admission layer.

This file gives a shallow embedding, in Lean 4, of the admission-control
subsystem of the repository (rate limiting, JWT token lifecycle, refresh-token
store, CSRF pipeline), translated from the TypeScript sources:

* `src/apps/api/src/middleware/rateLimit.ts` — sliding-window rate limiter
* `src/apps/api/src/utils/jwt.ts`          — token codec
* `src/unnamed/part_012`                   — refresh-token database and service
* `src/apps/api/src/middleware/auth.test.ts` (the `setupMiddleware` stack)

and proves (or refutes) the specification's claims about them.

Machine integers of the source are modelled by `Nat`/`Int` (all quantities
involved — epoch milliseconds, counters, limits — stay far below 2^53 in the
scenarios of interest, where JavaScript number arithmetic is exact).
JavaScript `Date.now()` is an explicit `now : Nat` parameter (milliseconds);
the JWT clock is in seconds; a millisecond value derived from a second clock
is written `now * 1000`.  Redis is modelled as an explicit association list
from keys to sorted sets, threaded through every operation; a failing Redis
pipeline is a `Bool` flag on the check.  `Math.random()` nonces are explicit
parameters, so the model can speak about the two *distinct* nonces that
`checkRateLimit` draws in the add step and in the rejection-removal step.
-/

namespace NeoLink

/-! ## Rate limiter (src/apps/api/src/middleware/rateLimit.ts) -/

/-- Structure `RateLimitConfig` from rateLimit.ts (windowMs, maxRequests, message). -/
structure RateLimitConfig where
  windowMs : Nat
  maxRequests : Nat
  message : String
  deriving DecidableEq, Repr

/-- Tier `RATE_LIMIT_TIERS.default`: 60 s window, 100 requests. -/
def tierDefault : RateLimitConfig :=
  ⟨60 * 1000, 100, "Too many requests from this IP, please try again later"⟩

/-- Tier `RATE_LIMIT_TIERS.authenticated`: 60 s window, 300 requests. -/
def tierAuthenticated : RateLimitConfig :=
  ⟨60 * 1000, 300, "Too many requests, please try again later"⟩

/-- Tier `RATE_LIMIT_TIERS.strict`: 60 s window, 10 requests. -/
def tierStrict : RateLimitConfig :=
  ⟨60 * 1000, 10, "Rate limit exceeded for this operation"⟩

/-- Tier `RATE_LIMIT_TIERS.auth`: 1 h window, 5 requests. -/
def tierAuth : RateLimitConfig :=
  ⟨60 * 60 * 1000, 5, "Too many authentication attempts, please try again later"⟩

/-- A member of the sorted set `rate_limit:<identifier>`: the source inserts
the string `` `${now}-${Math.random()}` `` with score `now`; we model the
member name as the pair (time, nonce) — two members are the same Redis member
iff both components agree — and the score as the `time` component. -/
structure Member where
  time : Nat
  nonce : Nat
  deriving DecidableEq, Repr

/-- One Redis sorted set (one `rate_limit:` key), as its list of members. -/
abbrev SortedSet := List Member

/-- Redis `ZREMRANGEBYSCORE key lo hi`: drop members whose score lies in `[lo, hi]`.
The source calls it with `lo = 0`, `hi = now - windowMs` (an `Int`, since the
JavaScript subtraction may be negative while scores are non-negative). -/
def zremrangebyscore (s : SortedSet) (lo hi : Int) : SortedSet :=
  s.filter fun m => ¬ (lo ≤ (m.time : Int) ∧ (m.time : Int) ≤ hi)

/-- Redis `ZCARD key`: number of members. -/
def zcard (s : SortedSet) : Nat := s.length

/-- Redis `ZADD key score member`: adds the member (updating the score if the member
already exists; here the score is determined by the member, so that case is a
no-op). -/
def zadd (s : SortedSet) (m : Member) : SortedSet :=
  if m ∈ s then s else s ++ [m]

/-- Redis `ZREM key member`: remove the member with exactly that name, if present. -/
def zrem (s : SortedSet) (m : Member) : SortedSet :=
  s.filter fun x => x ≠ m

/-- The whole counting store: keys to sorted sets.  (Key-level TTL set by the
`EXPIRE` step is not modelled; no claim depends on idle-key eviction.) -/
abbrev RedisState := List (String × SortedSet)

/-- Read a key; a missing key is the empty sorted set. -/
def getKey (st : RedisState) (k : String) : SortedSet :=
  (st.lookup k).getD []

/-- Write a key back. -/
def setKey : RedisState → String → SortedSet → RedisState
  | [], k, s => [(k, s)]
  | (k0, s0) :: rest, k, s =>
      if k0 = k then (k, s) :: rest else (k0, s0) :: setKey rest k s

/-- The record returned by `checkRateLimit` (`{allowed, remaining, resetTime}`).
`remaining` is `Math.max(0, maxRequests - currentCount - 1)`, computed over
`Int` exactly as the source computes it over JavaScript numbers. -/
structure CheckResult where
  allowed : Bool
  remaining : Int
  resetTime : Nat
  deriving DecidableEq, Repr

/-- The count step of `checkRateLimit`: the `ZCARD` result observed after the
prune and before the add — `currentCount` in the source. -/
def countBeforeAdd (config : RateLimitConfig) (identifier : String) (now : Nat)
    (st : RedisState) : Nat :=
  zcard (zremrangebyscore (getKey st ("rate_limit:" ++ identifier)) 0
    ((now : Int) - (config.windowMs : Int)))

/-- Function `checkRateLimit` (rateLimit.ts lines 118-169), successful-pipeline path.
Steps, in pipeline order: prune members with score ≤ now − windowMs; count;
add the member `(now, addNonce)`; (EXPIRE — not modelled); decide.  On
rejection the source then issues `zrem(key, `${now}-${Math.random()}`)` with a
*freshly drawn* random — modelled by the separate nonce `remNonce`. -/
def checkRateLimitOk (config : RateLimitConfig) (identifier : String)
    (now addNonce remNonce : Nat) (st : RedisState) : CheckResult × RedisState :=
  let key := "rate_limit:" ++ identifier
  let windowStart : Int := (now : Int) - (config.windowMs : Int)
  let afterPrune := zremrangebyscore (getKey st key) 0 windowStart
  let currentCount := zcard afterPrune
  let afterAdd := zadd afterPrune ⟨now, addNonce⟩
  let allowed := currentCount < config.maxRequests
  let remaining : Int := max 0 ((config.maxRequests : Int) - (currentCount : Int) - 1)
  let resetTime := now + config.windowMs
  let finalSet := if allowed then afterAdd else zrem afterAdd ⟨now, remNonce⟩
  (⟨allowed, remaining, resetTime⟩, setKey st key finalSet)

/-- Function `checkRateLimit` including the `catch` branch: when the store is down
(`redisUp = false`, the pipeline throws) the limiter fails open, returning
`allowed = true`, `remaining = maxRequests`, and leaves the store untouched. -/
def checkRateLimit (config : RateLimitConfig) (identifier : String)
    (now addNonce remNonce : Nat) (redisUp : Bool) (st : RedisState) :
    CheckResult × RedisState :=
  if redisUp then checkRateLimitOk config identifier now addNonce remNonce st
  else (⟨true, (config.maxRequests : Int), now + config.windowMs⟩, st)

/-! ### Request shape and identifier derivation -/

/-- Structure `UserContext` from `@neolink/shared` (the fields the admission layer uses). -/
structure UserContext where
  id : String
  username : String
  email : String
  role : String
  isActive : Bool
  deriving DecidableEq, Repr

/-- The slice of a Hono request context the rate limiter reads: two headers,
the optional platform-provided `c.env?.ip`, and the optional authenticated
user attached by the auth middleware.  A `none` header is an absent header;
`some ""` is present-but-empty (falsy in the JavaScript conditionals). -/
structure HonoRequest where
  xForwardedFor : Option String
  xRealIp : Option String
  envIp : Option String
  user : Option UserContext
  deriving DecidableEq, Repr

/-- JavaScript truthiness of an optional string (`undefined`/`""` are falsy). -/
def truthy : Option String → Bool
  | none => false
  | some s => s ≠ ""

/-- The IP expression shared by `getClientIdentifier` and `isWhitelisted`:
`forwarded ? forwarded.split(',')[0].trim() : (c.req.header('x-real-ip') || c.env?.ip || 'unknown')`. -/
def clientIp (req : HonoRequest) : String :=
  if truthy req.xForwardedFor then
    (((req.xForwardedFor.getD "").splitOn ",").headD "").trim
  else if truthy req.xRealIp then req.xRealIp.getD ""
  else if truthy req.envIp then req.envIp.getD ""
  else "unknown"

/-- The set `IP_WHITELIST` (rateLimit.ts lines 49-54). -/
def IP_WHITELIST : List String := ["127.0.0.1", "::1", "localhost"]

/-- Function `isWhitelisted` (rateLimit.ts lines 106-113). -/
def isWhitelisted (req : HonoRequest) : Bool :=
  IP_WHITELIST.contains (clientIp req)

/-- Function `getClientIdentifier` (rateLimit.ts lines 87-101): authenticated-tier
requests with a user present are keyed `user:<id>`, everything else `ip:<ip>`. -/
def getClientIdentifier (req : HonoRequest) (tier : String) : String :=
  match req.user with
  | some u => if tier = "authenticated" then "user:" ++ u.id else "ip:" ++ clientIp req
  | none => "ip:" ++ clientIp req

/-- Outcome of the middleware produced by `createRateLimit`: either control
passes to `next` (carrying the response headers set so far), or the middleware
throws `TooManyRequestsError` (headers set, message attached). -/
inductive MwOutcome where
  | next (headers : List (String × String))
  | tooManyRequests (headers : List (String × String)) (message : String)
  deriving DecidableEq, Repr

/-- Does the outcome proceed to the next handler? -/
def MwOutcome.isNext : MwOutcome → Bool
  | .next _ => true
  | .tooManyRequests _ _ => false

/-- Modelled from the spec: the HTTP status produced for each outcome by the
top-level error handler (`middleware/errorHandler.ts`, which is not among the
provided sources; its test `src/unnamed/part_009` asserts that a thrown
`TooManyRequestsError` yields status 429). -/
def MwOutcome.statusCode : MwOutcome → Nat
  | .next _ => 200
  | .tooManyRequests _ _ => 429

/-- The middleware body returned by `createRateLimit` (rateLimit.ts lines
180-203), for one request: whitelist check first (before any store access),
then the sliding-window check, then headers / the 429 throw. -/
def createRateLimit (config : RateLimitConfig) (tier : String) (req : HonoRequest)
    (now addNonce remNonce : Nat) (redisUp : Bool) (st : RedisState) :
    MwOutcome × RedisState :=
  if isWhitelisted req then (.next [], st)
  else
    let identifier := getClientIdentifier req tier
    let r := checkRateLimit config identifier now addNonce remNonce redisUp st
    let headers := [("X-RateLimit-Limit", toString config.maxRequests),
                    ("X-RateLimit-Remaining", toString r.1.remaining),
                    ("X-RateLimit-Reset", toString ((r.1.resetTime + 999) / 1000))]
    if r.1.allowed then (.next headers, r.2)
    else
      (.tooManyRequests (headers ++ [("Retry-After", toString ((config.windowMs + 999) / 1000))])
        config.message, r.2)

/-- Run the middleware over a sequence of requests (each with its own clock
reading and nonces), threading the store; returns the outcomes in order. -/
def processRequests (config : RateLimitConfig) (tier : String) :
    List (HonoRequest × Nat × Nat × Nat) → Bool → RedisState →
    List MwOutcome × RedisState
  | [], _, st => ([], st)
  | (req, now, a, r) :: rest, redisUp, st =>
      let p := createRateLimit config tier req now a r redisUp st
      let q := processRequests config tier rest redisUp p.2
      (p.1 :: q.1, q.2)

/-- The claim's own derivation of the client IP, stated for comparison with the
source's `clientIp`: first forwarded-for entry, else the real-ip header, else
the literal `unknown` (the source additionally consults `c.env?.ip` before
falling back to `unknown`; the two derivations agree whenever the claim's one
yields anything other than `unknown`). -/
def specDerivedIp (req : HonoRequest) : String :=
  if truthy req.xForwardedFor then
    (((req.xForwardedFor.getD "").splitOn ",").headD "").trim
  else if truthy req.xRealIp then req.xRealIp.getD ""
  else "unknown"


/-! ## Token codec (src/apps/api/src/utils/jwt.ts)

JSON Web Tokens are modelled symbolically: a well-formed token is the record
of claims it carries together with the secret it was signed with and its
issuer/audience tags; the JWT encoding is injective (two tokens are the same
string iff payload, secret, issuer and audience all agree), and anything that
is not a well-formed JWT is `TokenStr.malformed`.  Signature verification is
comparing the token's signing secret with the verifier's secret. -/

/-- The claims payload (`JWTPayload` from `@neolink/shared`): user fields, the
kind discriminator `type` (`"access"` or `"refresh"`), issued-at and expiry
(epoch seconds; `exp` is optional since `jwt.decode` may yield a payload
without one). -/
structure JWTPayload where
  userId : String
  username : String
  email : String
  role : String
  type : String
  iat : Nat
  exp : Option Nat
  deriving DecidableEq, Repr

/-- A signed JWT: payload plus signing secret and the issuer/audience tags
`jwt.sign` embeds. -/
structure SignedJWT where
  payload : JWTPayload
  secret : String
  issuer : String
  audience : String
  deriving DecidableEq, Repr

/-- A token string: either a well-formed signed JWT or any other string. -/
inductive TokenStr where
  | malformed (raw : String)
  | signed (t : SignedJWT)
  deriving DecidableEq, Repr

/-- Error classes of the `jsonwebtoken` library.  `TokenExpiredError` (and
`NotBeforeError`) are subclasses of `JsonWebTokenError` in that library, which
matters for the `instanceof` chains in jwt.ts. -/
inductive JwtLibError where
  | jsonWebTokenError
  | tokenExpiredError
  deriving DecidableEq, Repr

/-- The library call `jwt.verify(token, secret, {issuer, audience})`:
malformed input or a signature (secret) mismatch raises `JsonWebTokenError`;
an expiry in the past (library rule: expired iff `now ≥ exp`) raises
`TokenExpiredError`; an audience or issuer mismatch raises
`JsonWebTokenError`; otherwise the payload is returned. -/
def jwtVerifyLib (t : TokenStr) (secret issuer audience : String) (now : Nat) :
    Except JwtLibError JWTPayload :=
  match t with
  | .malformed _ => .error .jsonWebTokenError
  | .signed s =>
    if s.secret ≠ secret then .error .jsonWebTokenError
    else
      match s.payload.exp with
      | some e =>
        if e ≤ now then .error .tokenExpiredError
        else if s.audience ≠ audience then .error .jsonWebTokenError
        else if s.issuer ≠ issuer then .error .jsonWebTokenError
        else .ok s.payload
      | none =>
        if s.audience ≠ audience then .error .jsonWebTokenError
        else if s.issuer ≠ issuer then .error .jsonWebTokenError
        else .ok s.payload

/-- Structure `JWTConfig` (jwt.ts lines 7-14); the TTL strings (`'15m'`,
`'7d'`) are modelled already parsed to seconds, as the `jsonwebtoken` library
parses them when signing. -/
structure JWTConfig where
  accessTokenSecret : String
  refreshTokenSecret : String
  accessTokenExpiry : Nat
  refreshTokenExpiry : Nat
  issuer : String
  audience : String
  deriving DecidableEq, Repr

/-- The configuration `getJWTConfig()` yields with no environment overrides
(jwt.ts lines 19-30): distinct default secrets, 15 min / 7 day TTLs. -/
def defaultJWTConfig : JWTConfig :=
  ⟨"your-access-secret-key", "your-refresh-secret-key",
   15 * 60, 7 * 24 * 60 * 60, "neolink-api", "neolink-client"⟩

/-- Function `generateAccessToken` (jwt.ts lines 35-51): sign the user's
claims with `type = "access"` under the access secret, expiry
`now + accessTokenExpiry`. -/
def generateAccessToken (config : JWTConfig) (user : UserContext) (now : Nat) : TokenStr :=
  .signed ⟨⟨user.id, user.username, user.email, user.role, "access",
            now, some (now + config.accessTokenExpiry)⟩,
           config.accessTokenSecret, config.issuer, config.audience⟩

/-- Function `generateRefreshToken` (jwt.ts lines 56-72): same shape with
`type = "refresh"`, the refresh secret and the refresh TTL. -/
def generateRefreshToken (config : JWTConfig) (user : UserContext) (now : Nat) : TokenStr :=
  .signed ⟨⟨user.id, user.username, user.email, user.role, "refresh",
            now, some (now + config.refreshTokenExpiry)⟩,
           config.refreshTokenSecret, config.issuer, config.audience⟩

/-- Function `verifyAccessToken` (jwt.ts lines 96-125).  On a library error
the `catch` chain tests `instanceof JsonWebTokenError` first; since
`TokenExpiredError` is a subclass of `JsonWebTokenError`, every library
failure — expired tokens included — is reported as `"Invalid token"`.  A
token that verifies but carries `type ≠ "access"` is reported as
`"Invalid token type"`. -/
def verifyAccessToken (config : JWTConfig) (t : TokenStr) (now : Nat) :
    Except String JWTPayload :=
  match jwtVerifyLib t config.accessTokenSecret config.issuer config.audience now with
  | .ok p => if p.type ≠ "access" then .error "Invalid token type" else .ok p
  | .error _ => .error "Invalid token"

/-- Function `verifyRefreshToken` (jwt.ts lines 130-159): mirror image of
`verifyAccessToken` with the refresh secret, expecting `type = "refresh"`,
reporting library failures as `"Invalid refresh token"`. -/
def verifyRefreshToken (config : JWTConfig) (t : TokenStr) (now : Nat) :
    Except String JWTPayload :=
  match jwtVerifyLib t config.refreshTokenSecret config.issuer config.audience now with
  | .ok p => if p.type ≠ "refresh" then .error "Invalid token type" else .ok p
  | .error _ => .error "Invalid refresh token"

/-- Function `decodeToken` (jwt.ts lines 164-170): `jwt.decode` without
signature verification; `null` (here `none`) on anything unparseable — it
never throws. -/
def decodeToken : TokenStr → Option JWTPayload
  | .malformed _ => none
  | .signed s => some s.payload

/-- Function `getTokenRemainingTime` (jwt.ts lines 193-201): 0 when the token
does not decode or its payload has no (or a falsy, i.e. zero) `exp` claim,
otherwise `Math.max(0, exp - now)` in seconds. -/
def getTokenRemainingTime (t : TokenStr) (now : Nat) : Int :=
  match decodeToken t with
  | none => 0
  | some p =>
    match p.exp with
    | none => 0
    | some e => if e = 0 then 0 else max 0 ((e : Int) - (now : Int))

/-- The value returned by `generateTokenPair` (jwt.ts lines 77-91):
access + refresh tokens, `expiresIn` recomputed by decoding the freshly made
access token, and the literal token type. -/
structure TokenPair where
  accessToken : TokenStr
  refreshToken : TokenStr
  expiresIn : Int
  tokenType : String
  deriving DecidableEq, Repr

/-- Function `generateTokenPair` (jwt.ts lines 77-91). -/
def generateTokenPair (config : JWTConfig) (user : UserContext) (now : Nat) : TokenPair :=
  let accessToken := generateAccessToken config user now
  let refreshToken := generateRefreshToken config user now
  let expiresIn : Int :=
    ((((decodeToken accessToken).bind JWTPayload.exp).getD 0 : Nat) : Int) - (now : Int)
  ⟨accessToken, refreshToken, expiresIn, "Bearer"⟩

/-! ## Refresh-token store and service (src/unnamed/part_012)

`RefreshTokenDatabase` stores records in a JavaScript `Map` keyed by record
id; all the operations the claims touch (`create`, `findByToken`,
`revokeByToken`) iterate over `this.tokens.values()`, which is the records in
insertion order — so the database is modelled as that insertion-ordered list.
(The secondary `userTokens` index only serves `findByUserId` and
`revokeAllUserTokens`, which no claim mentions.)  Timestamps (`Date` values)
are epoch milliseconds; the service clock parameter `now` is in seconds to
match the JWT clock, with `now * 1000` where the source reads `Date.now()` or
`new Date()`. -/

/-- Interface `RefreshTokenData` (part_012 lines 12-21). -/
structure RefreshTokenData where
  id : String
  userId : String
  token : TokenStr
  expiresAt : Nat
  createdAt : Nat
  isRevoked : Bool
  deviceInfo : Option String
  ipAddress : Option String
  deriving DecidableEq, Repr

/-- The records of a `RefreshTokenDatabase`, in insertion order. -/
abbrev RefreshTokenDB := List RefreshTokenData

/-- Method `RefreshTokenDatabase.create` (part_012 lines 30-49): append the
new record.  The generated id `` `refresh-${Date.now()}-${random}` `` is
modelled without its random suffix; no claim depends on id uniqueness. -/
def RefreshTokenDatabase.create (db : RefreshTokenDB) (userId : String)
    (token : TokenStr) (expiresAt : Nat) (isRevoked : Bool)
    (deviceInfo ipAddress : Option String) (nowMs : Nat) : RefreshTokenDB :=
  db ++ [⟨"refresh-" ++ toString nowMs, userId, token, expiresAt, nowMs,
          isRevoked, deviceInfo, ipAddress⟩]

/-- Method `RefreshTokenDatabase.findByToken` (part_012 lines 51-58): first
record, in insertion order, whose token string matches and which is not
revoked; `null` otherwise. -/
def findByToken : RefreshTokenDB → TokenStr → Option RefreshTokenData
  | [], _ => none
  | r :: rest, t =>
      if r.token = t ∧ r.isRevoked = false then some r else findByToken rest t

/-- Method `RefreshTokenDatabase.revokeByToken` (part_012 lines 82-90): walk
the records in insertion order; on the first one whose token string matches —
*revoked or not* — set its flag and return `true`; `false` if none matches. -/
def revokeByToken : RefreshTokenDB → TokenStr → Bool × RefreshTokenDB
  | [], _ => (false, [])
  | r :: rest, t =>
      if r.token = t then (true, { r with isRevoked := true } :: rest)
      else
        let p := revokeByToken rest t
        (p.1, r :: p.2)

/-- The in-memory user registry behind `userService.getUserById` (the lookup
the refresh flow performs; `src/unnamed/part_013`): find the user by id. -/
def getUserById (users : List UserContext) (id : String) : Option UserContext :=
  users.find? (fun u => u.id = id)

/-- The mutable state the token service touches: the refresh-token database
and the (read-only, for these flows) user registry. -/
structure ServiceState where
  db : RefreshTokenDB
  users : List UserContext
  deriving DecidableEq, Repr

/-- The value `TokenService.createTokenPair` resolves with (token pair plus a
user block; the user block's fields are copies of the input user). -/
structure TokenResponse where
  accessToken : TokenStr
  refreshToken : TokenStr
  expiresIn : Int
  tokenType : String
  userId : String
  deriving DecidableEq, Repr

/-- Method `TokenService.createTokenPair` (part_012 lines 142-174): generate
the pair, then persist the refresh token with
`expiresAt = new Date() + 7 days` — the 7 is hard-coded
(`refreshTokenExpiry.setDate(refreshTokenExpiry.getDate() + 7)`), not read
from the configured refresh TTL. -/
def TokenService.createTokenPair (config : JWTConfig) (user : UserContext)
    (now : Nat) (deviceInfo ipAddress : Option String) (db : RefreshTokenDB) :
    TokenResponse × RefreshTokenDB :=
  let tokens := generateTokenPair config user now
  let refreshTokenExpiry := now * 1000 + 7 * 24 * 60 * 60 * 1000
  let db2 := RefreshTokenDatabase.create db user.id tokens.refreshToken
    refreshTokenExpiry false deviceInfo ipAddress (now * 1000)
  (⟨tokens.accessToken, tokens.refreshToken, tokens.expiresIn, tokens.tokenType,
    user.id⟩, db2)

/-- Method `TokenService.refreshAccessToken` (part_012 lines 179-218): verify
the refresh token's signature and kind, look it up in the store (absent or
revoked fails), check the record's expiry, load the user (absent or inactive
fails), revoke the old record, then issue and persist a new pair.  The error
strings are the source's thrown messages; the spec taxonomy names the
store-lookup failure `InvalidRefreshToken`. -/
def TokenService.refreshAccessToken (config : JWTConfig) (refreshToken : TokenStr)
    (now : Nat) (deviceInfo ipAddress : Option String) (st : ServiceState) :
    Except String (TokenResponse × ServiceState) :=
  match verifyRefreshToken config refreshToken now with
  | .error e => .error e
  | .ok payload =>
    match findByToken st.db refreshToken with
    | none => .error "刷新令牌无效或已被撤销"
    | some storedToken =>
      if storedToken.isRevoked then .error "刷新令牌无效或已被撤销"
      else if storedToken.expiresAt < now * 1000 then .error "刷新令牌已过期"
      else
        match getUserById st.users payload.userId with
        | none => .error "用户不存在或已被禁用"
        | some user =>
          if user.isActive = false then .error "用户不存在或已被禁用"
          else
            let db1 := (revokeByToken st.db refreshToken).2
            let p := TokenService.createTokenPair config user now deviceInfo ipAddress db1
            .ok (p.1, ⟨p.2, st.users⟩)

/-! ## Security pipeline (setupMiddleware, src/apps/api/src/middleware/auth.test.ts)

The middleware stack registers, in this order (lines 588-686): request id,
secure headers, monitoring, logging, timing, the default-tier rate limiter,
CORS, then — the part the CSRF claim is about —
`app.use('/api/v1/*', csrf({origin: corsOrigins}))` (line 653) followed by
`app.use('/api/v1/auth/*', pass-through)` (line 661), and finally the body
size cap.  Hono dispatches every middleware whose path pattern matches, in
registration order; only the stages that can reject a request are modelled
(the earlier stages never do, and the rate limiter is modelled above), each as
`HttpRequest → Option Nat`: `some status` rejects, `none` passes on. -/

/-- The header slice of a request the CSRF/size stages read. -/
structure HttpRequest where
  method : String
  path : String
  contentType : Option String
  origin : Option String
  contentLength : Option Nat
  deriving DecidableEq, Repr

/-- The development CORS allow-list (`corsOrigins`, lines 630-633, with
`NODE_ENV ≠ 'production'`). -/
def corsOriginsDev : List String :=
  ["http://localhost:3000", "http://localhost:3001"]

/-- Does `p` start with `q`?  (Stated over the character lists so that it
evaluates inside the kernel.) -/
def strHasPrefix (q p : String) : Bool := List.isPrefixOf q.data p.data

/-- Hono pattern `/api/v1/*`. -/
def matchApiV1 (p : String) : Bool := strHasPrefix "/api/v1/" p

/-- Hono pattern `/api/v1/auth/*`. -/
def matchApiV1Auth (p : String) : Bool := strHasPrefix "/api/v1/auth/" p

/-- Is the declared content type one a plain HTML form can produce?  (Prefix
match, as the header may carry parameters such as a multipart boundary.) -/
def isFormContentType : Option String → Bool
  | none => false
  | some s =>
      ["application/x-www-form-urlencoded", "multipart/form-data",
       "text/plain"].any (fun f => strHasPrefix f s)

/-- Modelled from the spec: the origin check of the external `hono/csrf`
middleware (the library is not part of this repository's sources; spec §4.5/§8
describe it as rejecting state-changing requests whose Origin header is absent
or not in the allow-list, specifically form-encoded submissions).  `true`
means the request is blocked. -/
def csrfCheck (origins : List String) (method : String)
    (contentType origin : Option String) : Bool :=
  if method = "GET" ∨ method = "HEAD" then false
  else if isFormContentType contentType then
    match origin with
    | none => true
    | some o => ¬ origins.contains o
  else false

/-- The stage registered at line 653: the csrf middleware mounted on
`/api/v1/*` — note this pattern also matches every `/api/v1/auth/*` path. -/
def csrfStage (origins : List String) (r : HttpRequest) : Option Nat :=
  if matchApiV1 r.path ∧ csrfCheck origins r.method r.contentType r.origin
  then some 403 else none

/-- The stage registered at line 661 on `/api/v1/auth/*`: its body only
`await next()`s, so whatever path it matches it never rejects anything — and
it runs *after* the csrf stage in any case. -/
def csrfAuthExclusionStage (_ : HttpRequest) : Option Nat := none

/-- The body-size stage (lines 672-686): reject 413 when the declared
content-length exceeds 10 MiB. -/
def bodyLimitStage (r : HttpRequest) : Option Nat :=
  match r.contentLength with
  | some n => if n > 10 * 1024 * 1024 then some 413 else none
  | none => none

/-- The rejection decision of the pipeline's CSRF/size tail, stages in
registration order, first rejection wins. -/
def securityPipeline (origins : List String) (r : HttpRequest) : Option Nat :=
  match csrfStage origins r with
  | some s => some s
  | none =>
    match csrfAuthExclusionStage r with
    | some s => some s
    | none => bodyLimitStage r

/-! ## Concrete data used by the claim theorems and witnesses -/

/-- A request from the single non-whitelisted address 203.0.113.5 (delivered in
the real-ip header; no forwarded-for header, no auth user). -/
def plainReq : HonoRequest := ⟨none, some "203.0.113.5", none, none⟩

/-- Eleven `plainReq` checks inside one window: all at clock 1000000 ms, with
add-nonces 1..11 and (unused on allowed checks) removal-nonces 101..111. -/
def elevenStrictChecks : List (HonoRequest × Nat × Nat × Nat) :=
  (List.range 11).map (fun i => (plainReq, 1000000, i + 1, 101 + i))

/-- The rate-limit headers the strict tier sets at clock 1000000 ms. -/
def strictHeaders (rem : String) : List (String × String) :=
  [("X-RateLimit-Limit", "10"), ("X-RateLimit-Remaining", rem),
   ("X-RateLimit-Reset", "1060")]

/-- A store in which `ip:203.0.113.5` already holds 10 in-window markers
(times 1000000, nonces 0..9) — the strict tier's quota is exhausted. -/
def fullStrictStore : RedisState :=
  [("rate_limit:ip:203.0.113.5", (List.range 10).map (fun i => ⟨1000000, i⟩))]

/-- A sample user (the shape the jwt tests use). -/
def u0 : UserContext := ⟨"user-1", "alice", "alice@example.com", "user", true⟩

/-- A single live (unrevoked, far-future expiry) refresh-token record. -/
def liveRecord : RefreshTokenData :=
  ⟨"refresh-1", "user-1", .malformed "tokR", 999999999, 0, false, none, none⟩

/-- A JWT configuration whose refresh TTL (`JWT_REFRESH_EXPIRY`) is one hour —
i.e. different from the 7 days `createTokenPair` hard-codes for the store
record. -/
def oneHourRefreshConfig : JWTConfig :=
  { defaultJWTConfig with refreshTokenExpiry := 3600 }

/-! ## Theorems -/

/-- If the claim's IP derivation lands in the whitelist, it agrees with the
source's derivation and the source's whitelist test fires. -/
theorem isWhitelisted_of_specDerivedIp (req : HonoRequest)
    (h : IP_WHITELIST.contains (specDerivedIp req) = true) :
    isWhitelisted req = true := by
  unfold isWhitelisted clientIp
  unfold specDerivedIp at h
  by_cases h1 : truthy req.xForwardedFor
  · simpa [h1] using h
  · by_cases h2 : truthy req.xRealIp
    · simpa [h1, h2] using h
    · simp [h1, h2] at h
      exact absurd h (by decide)

/-! ### Concrete scenarios used by the rate-limiter claims -/

/-- C1.  The code does NOT remove the just-added member on rejection: the
removal call regenerates `Math.random()`, so it names a member `(now, remNonce)`
different from the added `(now, addNonce)`.  Evaluated at the failing input
(quota already exhausted, check rejected, removal nonce 101 ≠ add nonce 100):
the check is rejected, yet the added marker `(1000000, 100)` is still in the
sorted set afterwards, and the count a subsequent check observes inside the
same window is 11 — the rejected request consumed quota, contradicting the
claim (and confirming the latent bug the spec's design notes flag). -/
theorem rejectedMarkerNotRemoved :
    (checkRateLimitOk tierStrict "ip:203.0.113.5" 1000000 100 101 fullStrictStore).1.allowed
        = false ∧
    (⟨1000000, 100⟩ : Member) ∈
      getKey (checkRateLimitOk tierStrict "ip:203.0.113.5" 1000000 100 101 fullStrictStore).2
        "rate_limit:ip:203.0.113.5" ∧
    countBeforeAdd tierStrict "ip:203.0.113.5" 1000001
      (checkRateLimitOk tierStrict "ip:203.0.113.5" 1000000 100 101 fullStrictStore).2 = 11 := by
  refine ⟨rfl, ?_, rfl⟩
  decide

/-- C5.  Fail-open: when the Redis pipeline throws (`redisUp = false`), the
check returns `allowed = true` with `remaining = maxRequests` and an unchanged
store, and the middleware always proceeds to the next handler (the store
failure is never surfaced as a request error). -/
theorem checkRateLimit_failOpen (config : RateLimitConfig) (identifier : String)
    (now addNonce remNonce : Nat) (st : RedisState) (tier : String) (req : HonoRequest) :
    checkRateLimit config identifier now addNonce remNonce false st
        = (⟨true, (config.maxRequests : Int), now + config.windowMs⟩, st) ∧
    (createRateLimit config tier req now addNonce remNonce false st).1.isNext = true ∧
    (createRateLimit config tier req now addNonce remNonce false st).2 = st := by
  refine ⟨rfl, ?_, ?_⟩ <;>
    · unfold createRateLimit
      split
      · rfl
      · simp [checkRateLimit, MwOutcome.isNext]

/-- C6.  Sliding-window decision rule, generally and on the strict tier.
General clauses: every successful check decides
`allowed = (countBeforeAdd < maxRequests)` and reports
`remaining = max 0 (maxRequests - countBeforeAdd - 1)`.  Concrete clause: on
tier `strict` (60 s, 10), from an empty window, checks 1-10 all proceed with
remaining 9,8,...,0, the 11th throws `TooManyRequestsError` (HTTP 429) with a
`Retry-After: 60` header and the tier's message. -/
theorem slidingWindow_strict :
    (∀ (config : RateLimitConfig) (identifier : String) (now a r : Nat) (st : RedisState),
      (checkRateLimitOk config identifier now a r st).1.allowed
          = decide (countBeforeAdd config identifier now st < config.maxRequests) ∧
      (checkRateLimitOk config identifier now a r st).1.remaining
          = max 0 ((config.maxRequests : Int) - (countBeforeAdd config identifier now st : Int) - 1)) ∧
    (processRequests tierStrict "strict" elevenStrictChecks true []).1 =
      [.next (strictHeaders "9"), .next (strictHeaders "8"), .next (strictHeaders "7"),
       .next (strictHeaders "6"), .next (strictHeaders "5"), .next (strictHeaders "4"),
       .next (strictHeaders "3"), .next (strictHeaders "2"), .next (strictHeaders "1"),
       .next (strictHeaders "0"),
       .tooManyRequests (strictHeaders "0" ++ [("Retry-After", "60")])
         "Rate limit exceeded for this operation"] ∧
    ((processRequests tierStrict "strict" elevenStrictChecks true []).1.getLastD (.next [])).statusCode
        = 429 := by
  refine ⟨fun config identifier now a r st => ⟨rfl, rfl⟩, by rfl, by rfl⟩

/-- C7.  A request whose (claim-derived) client IP is whitelisted bypasses
rate limiting before any store access: over an arbitrary batch of such
requests, every outcome is a plain pass-through (no rejection, not even
rate-limit headers) and the counting store is left exactly as it was. -/
theorem whitelisted_never_limited (config : RateLimitConfig) (tier : String)
    (reqs : List (HonoRequest × Nat × Nat × Nat)) (redisUp : Bool) (st : RedisState)
    (h : ∀ x ∈ reqs, IP_WHITELIST.contains (specDerivedIp x.1) = true) :
    processRequests config tier reqs redisUp st
      = (reqs.map (fun _ => .next []), st) := by
  induction reqs generalizing st with
  | nil => rfl
  | cons x rest ih =>
    obtain ⟨req, now, a, r⟩ := x
    have hw : isWhitelisted req = true :=
      isWhitelisted_of_specDerivedIp req (h _ (List.mem_cons_self _ _))
    simp [processRequests, createRateLimit, hw,
      ih st (fun y hy => h y (List.mem_cons_of_mem _ hy))]

/-- Witness for C7: three loopback requests (one per whitelist entry shape)
in a store that already has traffic; all pass untouched. -/
theorem whitelisted_never_limited_witness :
    (∀ x ∈ [((⟨none, some "127.0.0.1", none, none⟩ : HonoRequest), 5, 1, 2),
            ((⟨none, some "::1", none, none⟩ : HonoRequest), 6, 3, 4),
            ((⟨none, some "localhost", none, none⟩ : HonoRequest), 7, 5, 6)],
        IP_WHITELIST.contains (specDerivedIp x.1) = true) ∧
    processRequests tierStrict "strict"
        [((⟨none, some "127.0.0.1", none, none⟩ : HonoRequest), 5, 1, 2),
         ((⟨none, some "::1", none, none⟩ : HonoRequest), 6, 3, 4),
         ((⟨none, some "localhost", none, none⟩ : HonoRequest), 7, 5, 6)]
        true fullStrictStore
      = ([.next [], .next [], .next []], fullStrictStore) :=
  ⟨by decide, whitelisted_never_limited tierStrict "strict" _ true fullStrictStore (by decide)⟩

/-- C9.  `getTokenRemainingTime` is total and non-negative: for every token
string and clock it returns an integer ≥ 0, and it returns exactly 0 whenever
the string does not decode as a JWT or its payload carries no expiry claim. -/
theorem getTokenRemainingTime_total (t : TokenStr) (now : Nat) :
    0 ≤ getTokenRemainingTime t now ∧
    (decodeToken t = none → getTokenRemainingTime t now = 0) ∧
    (∀ p, decodeToken t = some p → p.exp = none → getTokenRemainingTime t now = 0) := by
  cases t with
  | malformed raw => simp [getTokenRemainingTime, decodeToken]
  | signed s =>
    cases h : s.payload.exp with
    | none => simp [getTokenRemainingTime, decodeToken, h]
    | some e =>
      refine ⟨?_, by simp [decodeToken], ?_⟩
      · simp only [getTokenRemainingTime, decodeToken, h]
        split
        · exact le_refl 0
        · exact le_max_left 0 _
      · intro p hp hexp
        simp [decodeToken] at hp
        rw [← hp] at hexp
        rw [h] at hexp
        cases hexp

/-- Witness for C9: an unparseable token string, at clock 12345 s, yields
remaining time 0 (and ≥ 0). -/
theorem getTokenRemainingTime_total_witness :
    decodeToken (.malformed "not-a-jwt") = none ∧
    0 ≤ getTokenRemainingTime (.malformed "not-a-jwt") 12345 ∧
    getTokenRemainingTime (.malformed "not-a-jwt") 12345 = 0 :=
  ⟨rfl, (getTokenRemainingTime_total _ 12345).1,
   (getTokenRemainingTime_total _ 12345).2.1 rfl⟩

/-- Counterexample to C4 as stated: under the default configuration (distinct
access/refresh secrets), verifying a freshly issued access token as a refresh
token fails with the generic signature-failure message `"Invalid refresh
token"` (the spec's `InvalidToken`), not with the wrong-kind message
`"Invalid token type"` (the spec's `WrongTokenKind`) — the signature check
runs before the kind check ever could. -/
theorem crossVerify_not_wrongKind :
    verifyRefreshToken defaultJWTConfig (generateAccessToken defaultJWTConfig u0 1000) 1000
        = .error "Invalid refresh token" ∧
    verifyRefreshToken defaultJWTConfig (generateAccessToken defaultJWTConfig u0 1000) 1000
        ≠ .error "Invalid token type" := by
  refine ⟨rfl, ?_⟩
  intro h
  have h1 : verifyRefreshToken defaultJWTConfig
      (generateAccessToken defaultJWTConfig u0 1000) 1000
      = Except.error "Invalid refresh token" := rfl
  rw [h1] at h
  injection h with h2
  exact absurd h2 (by decide)

/-- C4 (amended).  Verifying `issueAccess(identity)` as an access token,
within its TTL, succeeds with the identity's subject and role; verifying it
as a refresh token fails — but, whenever the two secrets differ (as in the
default configuration), with the generic `"Invalid refresh token"` signature
failure rather than the wrong-kind error. -/
theorem issueAccess_verify (config : JWTConfig) (user : UserContext) (now now2 : Nat)
    (hvalid : now2 < now + config.accessTokenExpiry)
    (hsec : config.accessTokenSecret ≠ config.refreshTokenSecret) :
    verifyAccessToken config (generateAccessToken config user now) now2
        = .ok ⟨user.id, user.username, user.email, user.role, "access",
               now, some (now + config.accessTokenExpiry)⟩ ∧
    verifyRefreshToken config (generateAccessToken config user now) now2
        = .error "Invalid refresh token" := by
  constructor
  · simp [verifyAccessToken, generateAccessToken, jwtVerifyLib, Nat.not_le.mpr hvalid]
  · simp [verifyRefreshToken, generateAccessToken, jwtVerifyLib, hsec]

/-- Witness for C4: the default configuration, the sample user, issuance and
verification both at clock 1000 s. -/
theorem issueAccess_verify_witness :
    (1000 < 1000 + defaultJWTConfig.accessTokenExpiry ∧
     defaultJWTConfig.accessTokenSecret ≠ defaultJWTConfig.refreshTokenSecret) ∧
    verifyAccessToken defaultJWTConfig (generateAccessToken defaultJWTConfig u0 1000) 1000
        = .ok ⟨u0.id, u0.username, u0.email, u0.role, "access",
               1000, some (1000 + defaultJWTConfig.accessTokenExpiry)⟩ ∧
    verifyRefreshToken defaultJWTConfig (generateAccessToken defaultJWTConfig u0 1000) 1000
        = .error "Invalid refresh token" :=
  ⟨⟨by decide, by decide⟩,
   issueAccess_verify defaultJWTConfig u0 1000 1000 (by decide) (by decide)⟩

/-- Counterexample to C2 as stated: `revokeByToken` matches records on the
token string alone, never testing the revoked flag, so the *second* call on
an already-revoked record still returns `true` — not the `false` the claim
requires for a subsequent call. -/
theorem revoke_second_call_returns_true :
    (revokeByToken [liveRecord] (.malformed "tokR")).1 = true ∧
    (revokeByToken (revokeByToken [liveRecord] (.malformed "tokR")).2
        (.malformed "tokR")).1 = true ∧
    (revokeByToken (revokeByToken [liveRecord] (.malformed "tokR")).2
        (.malformed "tokR")).1 ≠ false := by
  decide

/-- Lookup misses when no live record carries the token string. -/
theorem findByToken_none (db : RefreshTokenDB) (t : TokenStr)
    (h : ∀ x ∈ db, ¬ (x.token = t ∧ x.isRevoked = false)) :
    findByToken db t = none := by
  induction db with
  | nil => rfl
  | cons r rest ih =>
    rw [findByToken, if_neg (h r (List.mem_cons_self _ _))]
    exact ih (fun x hx => h x (List.mem_cons_of_mem _ hx))

/-- C2 (amended).  For a store holding at most one record with the given
token string: `revoke` returns `true` exactly when a record with that string
exists — *revoked or not*, so a second call returns `true` again rather than
`false` (and a call on an absent string returns `false`) — and after a call
`lookup` of that string returns none. -/
theorem revokeByToken_spec (db : RefreshTokenDB) (t : TokenStr)
    (huniq : (db.filter (fun r => r.token = t)).length ≤ 1) :
    ((revokeByToken db t).1 = true ↔ ∃ r ∈ db, r.token = t) ∧
    findByToken (revokeByToken db t).2 t = none ∧
    (revokeByToken (revokeByToken db t).2 t).1 = (revokeByToken db t).1 := by
  induction db with
  | nil => simp [revokeByToken, findByToken]
  | cons r rest ih =>
    by_cases hr : r.token = t
    · have h2 : (revokeByToken (r :: rest) t)
          = (true, { r with isRevoked := true } :: rest) := by
        rw [revokeByToken, if_pos hr]
      have hrest : ∀ x ∈ rest, ¬ x.token = t := by
        rw [List.filter_cons, if_pos (by simpa using hr)] at huniq
        simp only [List.length_cons] at huniq
        have hnil : rest.filter (fun r => r.token = t) = [] :=
          List.length_eq_zero.mp (by omega)
        intro x hx hxt
        have hmem : x ∈ rest.filter (fun r => r.token = t) :=
          List.mem_filter.mpr ⟨hx, by simpa using hxt⟩
        rw [hnil] at hmem
        exact absurd hmem (List.not_mem_nil x)
      refine ⟨?_, ?_, ?_⟩
      · rw [h2]
        exact ⟨fun _ => ⟨r, List.mem_cons_self _ _, hr⟩, fun _ => rfl⟩
      · rw [h2]
        apply findByToken_none
        intro x hx
        rcases List.mem_cons.mp hx with h | h
        · subst h; simp
        · exact fun hc => hrest x h hc.1
      · rw [h2]
        simp [revokeByToken, hr]
    · have h2 : revokeByToken (r :: rest) t
          = ((revokeByToken rest t).1, r :: (revokeByToken rest t).2) := by
        rw [revokeByToken, if_neg hr]
      have huniq2 : (rest.filter (fun r => r.token = t)).length ≤ 1 := by
        rwa [List.filter_cons, if_neg (by simpa using hr)] at huniq
      obtain ⟨ih1, ih2, ih3⟩ := ih huniq2
      refine ⟨?_, ?_, ?_⟩
      · rw [h2]
        simp only [ih1]
        constructor
        · rintro ⟨x, hx, hxt⟩
          exact ⟨x, List.mem_cons_of_mem _ hx, hxt⟩
        · rintro ⟨x, hx, hxt⟩
          rcases List.mem_cons.mp hx with h | h
          · exact absurd (h ▸ hxt) hr
          · exact ⟨x, h, hxt⟩
      · rw [h2, findByToken, if_neg (fun hc => hr hc.1)]
        exact ih2
      · rw [h2, revokeByToken, if_neg hr, ih3]

/-- Witness for C2: a one-record store holding a live record. -/
theorem revokeByToken_spec_witness :
    ((revokeByToken [liveRecord] (.malformed "tokR")).1 = true ↔
        ∃ r ∈ [liveRecord], r.token = (.malformed "tokR")) ∧
    findByToken (revokeByToken [liveRecord] (.malformed "tokR")).2
        (.malformed "tokR") = none ∧
    (revokeByToken (revokeByToken [liveRecord] (.malformed "tokR")).2
        (.malformed "tokR")).1
      = (revokeByToken [liveRecord] (.malformed "tokR")).1 :=
  revokeByToken_spec [liveRecord] (.malformed "tokR") (by decide)

/-- C10.  `TokenService.createTokenPair` always persists the refresh record
with `expiresAt` exactly 7 days (in milliseconds) after issuance, whatever
the configured refresh TTL is; the signed refresh token itself embeds
`exp = now + configured TTL`, so whenever the configured TTL differs from
7 days the record's expiry and the token's embedded expiry name different
instants. -/
theorem createTokenPair_record_expiry (config : JWTConfig) (user : UserContext)
    (now : Nat) (dev ip : Option String) (db : RefreshTokenDB) :
    ∃ r, (TokenService.createTokenPair config user now dev ip db).2 = db ++ [r] ∧
      r.expiresAt = now * 1000 + 7 * 24 * 60 * 60 * 1000 ∧
      (∀ p, decodeToken r.token = some p → p.exp = some (now + config.refreshTokenExpiry)) ∧
      (config.refreshTokenExpiry ≠ 7 * 24 * 60 * 60 →
        (now + config.refreshTokenExpiry) * 1000 ≠ r.expiresAt) := by
  refine ⟨_, rfl, rfl, ?_, ?_⟩
  · intro p hp
    simp [TokenService.createTokenPair, generateTokenPair, generateRefreshToken,
      RefreshTokenDatabase.create, decodeToken] at hp
    rw [← hp]
  · intro hne
    simp only []
    omega

/-- Witness for C10: with a one-hour configured refresh TTL, the persisted
record still expires 7 days after issuance, and that differs from the signed
token's embedded expiry. -/
theorem createTokenPair_record_expiry_witness :
    oneHourRefreshConfig.refreshTokenExpiry ≠ 7 * 24 * 60 * 60 ∧
    ∃ r, (TokenService.createTokenPair oneHourRefreshConfig u0 50 none none []).2
          = [] ++ [r] ∧
      r.expiresAt = 50 * 1000 + 7 * 24 * 60 * 60 * 1000 ∧
      (50 + oneHourRefreshConfig.refreshTokenExpiry) * 1000 ≠ r.expiresAt := by
  refine ⟨by decide, ?_⟩
  obtain ⟨r, h1, h2, _, h4⟩ :=
    createTokenPair_record_expiry oneHourRefreshConfig u0 50 none none []
  exact ⟨r, h1, h2, h4 (by decide)⟩

/-- The success path of `refreshAccessToken`: valid token, live unexpired
record, active user — the old record is revoked and a new pair persisted. -/
theorem refreshAccessToken_ok (config : JWTConfig) (rt : TokenStr) (now : Nat)
    (dev ip : Option String) (st : ServiceState) (payload : JWTPayload)
    (stored : RefreshTokenData) (user : UserContext)
    (hv : verifyRefreshToken config rt now = .ok payload)
    (hf : findByToken st.db rt = some stored)
    (hrev : stored.isRevoked = false)
    (hexp : ¬ (stored.expiresAt < now * 1000))
    (hu : getUserById st.users payload.userId = some user)
    (hact : user.isActive = true) :
    TokenService.refreshAccessToken config rt now dev ip st
      = .ok ((TokenService.createTokenPair config user now dev ip
                (revokeByToken st.db rt).2).1,
             ⟨(TokenService.createTokenPair config user now dev ip
                (revokeByToken st.db rt).2).2, st.users⟩) := by
  unfold TokenService.refreshAccessToken
  simp [hv, hf, hu, hrev, hexp, hact]

/-- The store-miss path of `refreshAccessToken`: a token that verifies but is
absent from (or revoked in) the store fails with the source's
invalid-refresh-token message. -/
theorem refreshAccessToken_notFound (config : JWTConfig) (rt : TokenStr) (now : Nat)
    (dev ip : Option String) (st : ServiceState) (payload : JWTPayload)
    (hv : verifyRefreshToken config rt now = .ok payload)
    (hf : findByToken st.db rt = none) :
    TokenService.refreshAccessToken config rt now dev ip st
      = .error "刷新令牌无效或已被撤销" := by
  unfold TokenService.refreshAccessToken
  simp [hv, hf]

/-- A refresh token verifies (as refresh) any time before its embedded
expiry. -/
theorem verifyRefreshToken_gen (config : JWTConfig) (user : UserContext)
    (tIss now : Nat) (h : now < tIss + config.refreshTokenExpiry) :
    verifyRefreshToken config (generateRefreshToken config user tIss) now
      = .ok ⟨user.id, user.username, user.email, user.role, "refresh",
             tIss, some (tIss + config.refreshTokenExpiry)⟩ := by
  simp [verifyRefreshToken, generateRefreshToken, jwtVerifyLib, not_le.mpr h]

/-- C8.  Rotation-on-use: starting from an empty store, log in at `t0`
(persisting refresh token R), refresh successfully at `t1 > t0` (both clocks
within R's validity and the record's 7-day store expiry).  The successful
refresh revokes R's record before issuing the new pair, so a second refresh
presenting R (at any in-validity `t2`) fails with the source's
invalid-refresh-token error, and looking R up in the resulting store finds
nothing. -/
theorem refresh_rotation (config : JWTConfig) (user : UserContext)
    (users : List UserContext) (t0 t1 t2 : Nat) (dev ip : Option String)
    (hu : getUserById users user.id = some user) (hact : user.isActive = true)
    (h01 : t0 < t1) (h1exp : t1 < t0 + config.refreshTokenExpiry)
    (h2exp : t2 < t0 + config.refreshTokenExpiry)
    (h1rec : t1 ≤ t0 + 7 * 24 * 60 * 60) :
    ∃ resp st2,
      TokenService.refreshAccessToken config
          (TokenService.createTokenPair config user t0 dev ip []).1.refreshToken t1 dev ip
          ⟨(TokenService.createTokenPair config user t0 dev ip []).2, users⟩
        = .ok (resp, st2) ∧
      TokenService.refreshAccessToken config
          (TokenService.createTokenPair config user t0 dev ip []).1.refreshToken t2 dev ip st2
        = .error "刷新令牌无效或已被撤销" ∧
      findByToken st2.db
          (TokenService.createTokenPair config user t0 dev ip []).1.refreshToken
        = none := by
  have hR : (TokenService.createTokenPair config user t0 dev ip []).1.refreshToken
      = generateRefreshToken config user t0 := rfl
  have hv1 := verifyRefreshToken_gen config user t0 t1 h1exp
  have hv2 := verifyRefreshToken_gen config user t0 t2 h2exp
  have hdb1 : (TokenService.createTokenPair config user t0 dev ip []).2
      = [⟨"refresh-" ++ toString (t0 * 1000), user.id, generateRefreshToken config user t0,
          t0 * 1000 + 7 * 24 * 60 * 60 * 1000, t0 * 1000, false, dev, ip⟩] := rfl
  have hf1 : findByToken (TokenService.createTokenPair config user t0 dev ip []).2
      (generateRefreshToken config user t0)
      = some ⟨"refresh-" ++ toString (t0 * 1000), user.id,
              generateRefreshToken config user t0,
              t0 * 1000 + 7 * 24 * 60 * 60 * 1000, t0 * 1000, false, dev, ip⟩ := by
    rw [hdb1]
    simp [findByToken]
  have hexp1 : ¬ ((t0 * 1000 + 7 * 24 * 60 * 60 * 1000 : Nat) < t1 * 1000) := by omega
  have hrev1 : (revokeByToken (TokenService.createTokenPair config user t0 dev ip []).2
      (generateRefreshToken config user t0)).2
      = [⟨"refresh-" ++ toString (t0 * 1000), user.id, generateRefreshToken config user t0,
          t0 * 1000 + 7 * 24 * 60 * 60 * 1000, t0 * 1000, true, dev, ip⟩] := by
    rw [hdb1]
    simp [revokeByToken]
  have hkey : findByToken
      (TokenService.createTokenPair config user t1 dev ip
        (revokeByToken (TokenService.createTokenPair config user t0 dev ip []).2
          (generateRefreshToken config user t0)).2).2
      (generateRefreshToken config user t0) = none := by
    rw [hrev1]
    simp only [TokenService.createTokenPair, generateTokenPair, RefreshTokenDatabase.create]
    simp [findByToken, generateRefreshToken, TokenStr.signed.injEq, SignedJWT.mk.injEq,
      JWTPayload.mk.injEq]
    omega
  refine ⟨_, _,
    refreshAccessToken_ok config _ t1 dev ip _ _ _ user (hR ▸ hv1) (by rw [hR]; exact hf1)
      rfl hexp1 hu hact, ?_, ?_⟩
  · exact refreshAccessToken_notFound config _ t2 dev ip _ _ (hR ▸ hv2)
      (by rw [hR]; exact hkey)
  · rw [hR]
    exact hkey

/-- Witness for C8: default configuration, the sample user, login at 100 s,
first refresh at 200 s, replay attempt at 300 s. -/
theorem refresh_rotation_witness :
    (getUserById [u0] u0.id = some u0 ∧ u0.isActive = true ∧ (100 : Nat) < 200 ∧
     200 < 100 + defaultJWTConfig.refreshTokenExpiry ∧
     300 < 100 + defaultJWTConfig.refreshTokenExpiry ∧
     (200 : Nat) ≤ 100 + 7 * 24 * 60 * 60) ∧
    ∃ resp st2,
      TokenService.refreshAccessToken defaultJWTConfig
          (TokenService.createTokenPair defaultJWTConfig u0 100 none none []).1.refreshToken
          200 none none
          ⟨(TokenService.createTokenPair defaultJWTConfig u0 100 none none []).2, [u0]⟩
        = .ok (resp, st2) ∧
      TokenService.refreshAccessToken defaultJWTConfig
          (TokenService.createTokenPair defaultJWTConfig u0 100 none none []).1.refreshToken
          300 none none st2
        = .error "刷新令牌无效或已被撤销" ∧
      findByToken st2.db
          (TokenService.createTokenPair defaultJWTConfig u0 100 none none []).1.refreshToken
        = none :=
  ⟨⟨by decide, rfl, by decide, by decide, by decide, by decide⟩,
   refresh_rotation defaultJWTConfig u0 [u0] 100 200 300 none none
     (by decide) rfl (by decide) (by decide) (by decide) (by decide)⟩

/-- C3.  The csrf middleware is mounted on `/api/v1/*`, whose pattern also
matches every `/api/v1/auth/*` path, and it is registered *before* the
pass-through "exclusion" middleware (which in any case never rejects) — so a
form-encoded state-changing request to `/api/v1/auth/login` with a foreign or
absent Origin IS rejected 403, contrary to the claim's "never CSRF-checked";
the same request shape to a non-auth `/api/v1/*` path is rejected 403 (that
half of the claim holds), and is admitted with an allow-listed Origin. -/
theorem authRoutes_still_csrf_checked :
    securityPipeline corsOriginsDev
        ⟨"POST", "/api/v1/auth/login", some "application/x-www-form-urlencoded",
         some "http://malicious-site.com", none⟩ = some 403 ∧
    securityPipeline corsOriginsDev
        ⟨"POST", "/api/v1/auth/login", some "application/x-www-form-urlencoded",
         none, none⟩ = some 403 ∧
    securityPipeline corsOriginsDev
        ⟨"POST", "/api/v1/bookmarks", some "application/x-www-form-urlencoded",
         some "http://malicious-site.com", none⟩ = some 403 ∧
    securityPipeline corsOriginsDev
        ⟨"POST", "/api/v1/bookmarks", some "application/x-www-form-urlencoded",
         some "http://localhost:3000", none⟩ = none := by
  decide


end NeoLink
